import Mathlib

/-
  Verification development for the KaspaClash balance analyzer
  (src/analyze_balance.py).

  The script is a single-pass pipeline over an embedded roster of 20
  characters: derive per-character combat statistics, min-max normalize a
  fixed set of columns over the whole roster, combine five of the
  normalized columns into a weighted power score, group by price tier and
  report.

  Embedding conventions:
  * Python numbers are embedded as exact rationals (ℚ); decimal literals
    such as 1.15 denote the exact decimal fraction 115/100.
  * Python raises ZeroDivisionError on scalar division by zero, so the
    per-character derivation is a function into Option: `none` models the
    uncaught exception aborting the run.
  * pandas Series division by zero does NOT raise: it silently yields
    NaN (0/0) or infinity. A pandas cell is embedded as `Option ℚ`, with
    `none` standing for such an undefined (NaN/inf) value, and arithmetic
    propagating `none`.
-/

namespace BalanceAnalyzer

/-- Per-move damage modifiers of a character (the `damageModifiers` dict). -/
structure DamageModifiers where
  punch : ℚ
  kick : ℚ
  special : ℚ
deriving DecidableEq

/-- One entry of the `CHARACTERS` table. -/
structure CharacterDef where
  name : String
  maxHp : ℚ
  maxEnergy : ℚ
  energyRegen : ℚ
  damageModifiers : DamageModifiers
  blockEffectiveness : ℚ
  specialCostModifier : ℚ
deriving DecidableEq

/-- An entry of `BASE_MOVE_STATS`. -/
structure MoveStats where
  damage : ℚ
  energyCost : ℚ
deriving DecidableEq

/-- BASE_MOVE_STATS["punch"] = {"damage": 10, "energyCost": 0}. -/
def punchStats : MoveStats := ⟨10, 0⟩

/-- BASE_MOVE_STATS["kick"] = {"damage": 15, "energyCost": 25}. -/
def kickStats : MoveStats := ⟨15, 25⟩

/-- BASE_MOVE_STATS["special"] = {"damage": 25, "energyCost": 50}. -/
def specialStats : MoveStats := ⟨25, 50⟩

/-- The `PRICES` dict, as an association list in source order. -/
def PRICES : List (String × ℚ) :=
  [("cyber-ninja", 0), ("dag-warrior", 0), ("block-bruiser", 0), ("hash-hunter", 0),
   ("neon-wraith", 150), ("heavy-loader", 150), ("cyber-paladin", 150), ("razor-bot-7", 150),
   ("kitsune-09", 800), ("gene-smasher", 800), ("nano-brawler", 800), ("sonic-striker", 800),
   ("viperblade", 1500), ("bastion-hulk", 1500), ("technomancer", 1500), ("prism-duelist", 1500),
   ("chrono-drifter", 2500), ("scrap-goliath", 2500), ("aeon-guard", 2500), ("void-reaper", 2500)]

/-- `PRICES.get(name, 0)`: dictionary lookup with default 0. -/
def priceOf (n : String) : ℚ :=
  (List.lookup n PRICES).getD 0

/-- One row of the `data` list / the dataframe `df`, before normalization.
All raw and derived per-character fields of the derivation loop. -/
structure DerivedRow where
  name : String
  price : ℚ
  hp : ℚ
  energy : ℚ
  regen : ℚ
  punchDmg : ℚ
  kickDmg : ℚ
  specialDmg : ℚ
  specialCost : ℚ
  specialDPE : ℚ
  blockStr : ℚ
  turnsToSpecial : ℚ
  avgDmgMod : ℚ
deriving DecidableEq

/-- The body of the derivation loop (`for name, stats in CHARACTERS.items()`),
for a single character.  Python evaluates `special_dpe = special_dmg /
special_cost` before `turns_to_charge_special = special_cost /
stats["energyRegen"]`; either division raises an uncaught
ZeroDivisionError when its denominator is zero, modelled as `none`.
(`kick_dpe = kick_dmg / 25.0` is also computed in the loop but is never
stored in the row; its denominator is a nonzero constant.) -/
def deriveRow (c : CharacterDef) : Option DerivedRow :=
  let punchDmg := punchStats.damage * c.damageModifiers.punch
  let kickDmg := kickStats.damage * c.damageModifiers.kick
  let specialDmg := specialStats.damage * c.damageModifiers.special
  let specialCost := specialStats.energyCost * c.specialCostModifier
  if specialCost = 0 then none
  else
    let specialDPE := specialDmg / specialCost
    if c.energyRegen = 0 then none
    else
      let turnsToSpecial := specialCost / c.energyRegen
      let avgDmgMod :=
        (c.damageModifiers.punch + c.damageModifiers.kick + c.damageModifiers.special) / 3
      some
        { name := c.name
          price := priceOf c.name
          hp := c.maxHp
          energy := c.maxEnergy
          regen := c.energyRegen
          punchDmg := punchDmg
          kickDmg := kickDmg
          specialDmg := specialDmg
          specialCost := specialCost
          specialDPE := specialDPE
          blockStr := c.blockEffectiveness
          turnsToSpecial := turnsToSpecial
          avgDmgMod := avgDmgMod }

/-- The `CHARACTERS` table, in source order (20 characters). -/
def CHARACTERS : List CharacterDef :=
  [{ name := "cyber-ninja", maxHp := 96, maxEnergy := 105, energyRegen := 20,
     damageModifiers := ⟨1.15, 1.05, 1.0⟩,
     blockEffectiveness := 0.6, specialCostModifier := 0.85 },
   { name := "dag-warrior", maxHp := 100, maxEnergy := 100, energyRegen := 20,
     damageModifiers := ⟨1.05, 1.05, 1.05⟩,
     blockEffectiveness := 0.55, specialCostModifier := 1.0 },
   { name := "block-bruiser", maxHp := 115, maxEnergy := 90, energyRegen := 20,
     damageModifiers := ⟨1.0, 1.2, 1.0⟩,
     blockEffectiveness := 0.45, specialCostModifier := 1.25 },
   { name := "hash-hunter", maxHp := 98, maxEnergy := 105, energyRegen := 20,
     damageModifiers := ⟨1.0, 1.1, 1.2⟩,
     blockEffectiveness := 0.65, specialCostModifier := 1.0 },
   { name := "neon-wraith", maxHp := 92, maxEnergy := 120, energyRegen := 25,
     damageModifiers := ⟨1.1, 1.1, 1.15⟩,
     blockEffectiveness := 0.45, specialCostModifier := 0.9 },
   { name := "heavy-loader", maxHp := 135, maxEnergy := 70, energyRegen := 15,
     damageModifiers := ⟨1.1, 1.0, 1.0⟩,
     blockEffectiveness := 0.4, specialCostModifier := 1.3 },
   { name := "cyber-paladin", maxHp := 115, maxEnergy := 95, energyRegen := 20,
     damageModifiers := ⟨1.05, 1.05, 1.05⟩,
     blockEffectiveness := 0.6, specialCostModifier := 1.0 },
   { name := "razor-bot-7", maxHp := 95, maxEnergy := 100, energyRegen := 22,
     damageModifiers := ⟨1.05, 1.05, 1.3⟩,
     blockEffectiveness := 0.5, specialCostModifier := 1.0 },
   { name := "kitsune-09", maxHp := 95, maxEnergy := 110, energyRegen := 22,
     damageModifiers := ⟨1.05, 1.1, 1.1⟩,
     blockEffectiveness := 0.7, specialCostModifier := 0.9 },
   { name := "gene-smasher", maxHp := 115, maxEnergy := 90, energyRegen := 20,
     damageModifiers := ⟨1.25, 1.25, 1.1⟩,
     blockEffectiveness := 0.25, specialCostModifier := 1.0 },
   { name := "nano-brawler", maxHp := 95, maxEnergy := 105, energyRegen := 22,
     damageModifiers := ⟨1.2, 1.0, 1.1⟩,
     blockEffectiveness := 0.45, specialCostModifier := 1.0 },
   { name := "sonic-striker", maxHp := 105, maxEnergy := 100, energyRegen := 18,
     damageModifiers := ⟨1.15, 1.15, 1.0⟩,
     blockEffectiveness := 0.5, specialCostModifier := 1.0 },
   { name := "viperblade", maxHp := 105, maxEnergy := 100, energyRegen := 23,
     damageModifiers := ⟨1.15, 1.15, 1.1⟩,
     blockEffectiveness := 0.6, specialCostModifier := 1.0 },
   { name := "bastion-hulk", maxHp := 120, maxEnergy := 115, energyRegen := 20,
     damageModifiers := ⟨1.0, 1.0, 1.1⟩,
     blockEffectiveness := 0.85, specialCostModifier := 0.9 },
   { name := "technomancer", maxHp := 95, maxEnergy := 120, energyRegen := 25,
     damageModifiers := ⟨0.95, 0.95, 1.25⟩,
     blockEffectiveness := 0.55, specialCostModifier := 0.85 },
   { name := "prism-duelist", maxHp := 100, maxEnergy := 110, energyRegen := 22,
     damageModifiers := ⟨1.05, 1.05, 1.2⟩,
     blockEffectiveness := 0.75, specialCostModifier := 0.9 },
   { name := "chrono-drifter", maxHp := 120, maxEnergy := 105, energyRegen := 22,
     damageModifiers := ⟨1.1, 1.1, 1.25⟩,
     blockEffectiveness := 0.65, specialCostModifier := 1.0 },
   { name := "scrap-goliath", maxHp := 115, maxEnergy := 80, energyRegen := 25,
     damageModifiers := ⟨1.1, 1.1, 1.1⟩,
     blockEffectiveness := 0.5, specialCostModifier := 1.1 },
   { name := "aeon-guard", maxHp := 120, maxEnergy := 120, energyRegen := 24,
     damageModifiers := ⟨1.1, 1.1, 1.2⟩,
     blockEffectiveness := 0.65, specialCostModifier := 1.0 },
   { name := "void-reaper", maxHp := 95, maxEnergy := 120, energyRegen := 22,
     damageModifiers := ⟨1.25, 1.25, 1.25⟩,
     blockEffectiveness := 0.35, specialCostModifier := 1.0 }]

/-- The derivation loop over the whole roster.  The Python loop appends one
row per character and dies at the first ZeroDivisionError, so the pass
produces the row list only when every per-character derivation succeeds. -/
def deriveAll : List CharacterDef → Option (List DerivedRow)
  | [] => some []
  | c :: cs => do
    let r ← deriveRow c
    let rs ← deriveAll cs
    pure (r :: rs)

/-- The rows derived from the embedded sample roster (the dataframe `df`). -/
def sampleRows? : Option (List DerivedRow) :=
  deriveAll CHARACTERS

/-- Accumulate the minimum of a column: `omin v acc` folds one more cell
value `v` into the running minimum `acc` (`none` = no cells seen yet). -/
def omin (v : ℚ) (acc : Option ℚ) : Option ℚ :=
  some (acc.elim v (min v))

/-- Accumulate the maximum of a column, dually to `omin`. -/
def omax (v : ℚ) (acc : Option ℚ) : Option ℚ :=
  some (acc.elim v (max v))

/-- `df[col].min()`: the minimum of column `f` over the roster
(`none` = NaN on an empty frame). -/
def colMin (f : DerivedRow → ℚ) (rows : List DerivedRow) : Option ℚ :=
  rows.foldr (fun r acc => omin (f r) acc) none

/-- `df[col].max()`: the maximum of column `f` over the roster. -/
def colMax (f : DerivedRow → ℚ) (rows : List DerivedRow) : Option ℚ :=
  rows.foldr (fun r acc => omax (f r) acc) none

/-- pandas cell division: dividing by zero yields an undefined cell
(NaN or infinity), silently — no exception is raised. -/
def nanDiv (a b : ℚ) : Option ℚ :=
  if b = 0 then none else some (a / b)

/-- One cell of the normalization pass:
`(df[col] - df[col].min()) / (df[col].max() - df[col].min())`
evaluated at cell value `v` of column `f`. -/
def normVal (f : DerivedRow → ℚ) (rows : List DerivedRow) (v : ℚ) : Option ℚ := do
  let mn ← colMin f rows
  let mx ← colMax f rows
  nanDiv (v - mn) (mx - mn)

/-- One row of `normalized_df` restricted to the six columns of
`cols_to_norm` (pandas cells, so `Option ℚ`). -/
structure NormRow where
  hp : Option ℚ
  avgDmgMod : Option ℚ
  regen : Option ℚ
  blockStr : Option ℚ
  specialDPE : Option ℚ
  specialDmg : Option ℚ
deriving DecidableEq

/-- The normalization loop over `cols_to_norm = ["HP", "Avg Dmg Mod",
"Regen", "Block Str", "Special DPE", "Special Dmg"]`, at row `r`. -/
def normalizeRow (rows : List DerivedRow) (r : DerivedRow) : NormRow :=
  { hp := normVal DerivedRow.hp rows r.hp
    avgDmgMod := normVal DerivedRow.avgDmgMod rows r.avgDmgMod
    regen := normVal DerivedRow.regen rows r.regen
    blockStr := normVal DerivedRow.blockStr rows r.blockStr
    specialDPE := normVal DerivedRow.specialDPE rows r.specialDPE
    specialDmg := normVal DerivedRow.specialDmg rows r.specialDmg }

/-- `normalized_df["Power Score"]`: the weighted sum of five of the six
normalized columns.  The normalized "Special Dmg" column is not read.
NaN cells propagate (`none`). -/
def scoreOfNorm (n : NormRow) : Option ℚ := do
  let nhp ← n.hp
  let navg ← n.avgDmgMod
  let nreg ← n.regen
  let nblk ← n.blockStr
  let ndpe ← n.specialDPE
  pure (nhp * 1.0 + navg * 1.5 + nreg * 0.8 + nblk * 0.5 + ndpe * 1.0)

/-- The power score of row `r` within roster `rows`
(`df["Power Score"]` at that row). -/
def powerScore (rows : List DerivedRow) (r : DerivedRow) : Option ℚ :=
  scoreOfNorm (normalizeRow rows r)

/-- `df.groupby("Price")["Power Score"].mean()` at price tier `p`:
the arithmetic mean of the power scores of the rows whose price is `p`. -/
def tierMean (p : ℚ) (rows : List DerivedRow) : Option ℚ :=
  let xs := rows.filter (fun r => r.price = p)
  let s := xs.foldr (fun r acc => acc.bind (fun t => (powerScore rows r).map (· + t))) (some 0)
  s.map (· / (xs.length : ℚ))

/-- A row as seen by the final sort: its original roster position `idx`,
its price and its power score. -/
structure SRow where
  idx : ℕ
  price : ℚ
  score : ℚ
deriving DecidableEq

/-- The row ordering realized by
`df.sort_values(by=["Price", "Power Score"], ascending=[True, False])`:
price ascending first, then power score descending; pandas uses a stable
lexsort for multi-column sorts, so exact ties keep the original roster
order, encoded here by the final `idx` comparison. -/
def rowLE (a b : SRow) : Prop :=
  a.price < b.price ∨
    (a.price = b.price ∧ (b.score < a.score ∨ (a.score = b.score ∧ a.idx ≤ b.idx)))

instance : DecidableRel rowLE := fun a b => by
  unfold rowLE
  exact inferInstance

instance : IsTotal SRow rowLE := by
  constructor
  intro a b
  unfold rowLE
  rcases lt_trichotomy a.price b.price with h | h | h
  · exact Or.inl (Or.inl h)
  · rcases lt_trichotomy a.score b.score with hs | hs | hs
    · exact Or.inr (Or.inr ⟨h.symm, Or.inl hs⟩)
    · rcases Nat.le_total a.idx b.idx with hi | hi
      · exact Or.inl (Or.inr ⟨h, Or.inr ⟨hs, hi⟩⟩)
      · exact Or.inr (Or.inr ⟨h.symm, Or.inr ⟨hs.symm, hi⟩⟩)
    · exact Or.inl (Or.inr ⟨h, Or.inl hs⟩)
  · exact Or.inr (Or.inl h)

instance : IsTrans SRow rowLE := by
  constructor
  intro a b c h1 h2
  unfold rowLE at h1 h2 ⊢
  rcases h1 with hp1 | ⟨he1, hs1⟩
  · rcases h2 with hp2 | ⟨he2, _⟩
    · exact Or.inl (hp1.trans hp2)
    · exact Or.inl (he2 ▸ hp1)
  · rcases h2 with hp2 | ⟨he2, hs2⟩
    · exact Or.inl (he1 ▸ hp2)
    · refine Or.inr ⟨he1.trans he2, ?_⟩
      rcases hs1 with hlt1 | ⟨heq1, hi1⟩
      · rcases hs2 with hlt2 | ⟨heq2, _⟩
        · exact Or.inl (hlt2.trans hlt1)
        · exact Or.inl (heq2 ▸ hlt1)
      · rcases hs2 with hlt2 | ⟨heq2, hi2⟩
        · exact Or.inl (heq1 ▸ hlt2)
        · exact Or.inr ⟨heq1.trans heq2, hi1.trans hi2⟩

/-- The final sort of the report (`result = df.sort_values(...)`), as a
stable sort by `rowLE`. -/
def sortRows (l : List SRow) : List SRow :=
  List.insertionSort rowLE l

/-- Attach original roster positions to a list of (price, score) rows. -/
def mkRows (l : List (ℚ × ℚ)) : List SRow :=
  l.enum.map (fun p => ⟨p.1, p.2.1, p.2.2⟩)

/-- A concrete derived row whose frame `degRoster` has a zero-variance HP
column (both rows have HP 100). -/
def degRowA : DerivedRow :=
  ⟨"alpha", 0, 100, 100, 20, 10, 15, 25, 50, 1/2, 3/5, 5/2, 1⟩

/-- Second row of `degRoster`; same HP as `degRowA`, other columns vary. -/
def degRowB : DerivedRow :=
  ⟨"beta", 150, 100, 90, 25, 11, 16, 30, 45, 2/3, 1/2, 9/5, 11/10⟩

/-- A frame whose HP column is degenerate (max == min == 100). -/
def degRoster : List DerivedRow :=
  [degRowA, degRowB]

/-- Concrete test frame row: all five scored columns take value 0. -/
def wRow0 : DerivedRow :=
  ⟨"w0", 150, 0, 100, 0, 10, 15, 5, 50, 0, 0, 2, 0⟩

/-- Concrete test frame row: all five scored columns take value 1. -/
def wRow1 : DerivedRow :=
  ⟨"w1", 150, 1, 100, 1, 10, 15, 5, 50, 1, 1, 2, 1⟩

/-- Concrete test frame row: all five scored columns take value 2. -/
def wRow2 : DerivedRow :=
  ⟨"w2", 2500, 2, 100, 2, 10, 15, 5, 50, 2, 2, 2, 2⟩

/-- A concrete three-row frame with non-degenerate scored columns (its
Special Dmg column is constant, which the score never reads). -/
def wRows : List DerivedRow :=
  [wRow0, wRow1, wRow2]

/-- `wRows` with its first two rows exchanged. -/
def wRowsSwapped : List DerivedRow :=
  [wRow1, wRow0, wRow2]

/-- The first roster entry (cyber-ninja), for concrete instantiations. -/
def cyberNinja : CharacterDef :=
  ⟨"cyber-ninja", 96, 105, 20, ⟨1.15, 1.05, 1.0⟩, 0.6, 0.85⟩

/-- The derived row of `cyberNinja`. -/
def cyberNinjaRow : DerivedRow :=
  ⟨"cyber-ninja", 0, 96, 105, 20, 11.5, 15.75, 25, 42.5, 10/17, 3/5, 17/8, 16/15⟩

/-- A character with specialCostModifier 0, hence special cost 0. -/
def zeroCostChar : CharacterDef :=
  ⟨"zero-cost", 100, 100, 20, ⟨1, 1, 1⟩, 1/2, 0⟩

/-- A character with energyRegen 0. -/
def zeroRegenChar : CharacterDef :=
  ⟨"zero-regen", 100, 100, 0, ⟨1, 1, 1⟩, 1/2, 1⟩

/-- The rows the derivation loop produces on the embedded sample roster,
written out with exact rational values (verified below against
`sampleRows?`). -/
def sampleRowsList : List DerivedRow :=
  [⟨"cyber-ninja", 0, 96, 105, 20, 23/2, 63/4, 25, 85/2, 10/17, 3/5, 17/8, 16/15⟩,
   ⟨"dag-warrior", 0, 100, 100, 20, 21/2, 63/4, 105/4, 50, 21/40, 11/20, 5/2, 21/20⟩,
   ⟨"block-bruiser", 0, 115, 90, 20, 10, 18, 25, 125/2, 2/5, 9/20, 25/8, 16/15⟩,
   ⟨"hash-hunter", 0, 98, 105, 20, 10, 33/2, 30, 50, 3/5, 13/20, 5/2, 11/10⟩,
   ⟨"neon-wraith", 150, 92, 120, 25, 11, 33/2, 115/4, 45, 23/36, 9/20, 9/5, 67/60⟩,
   ⟨"heavy-loader", 150, 135, 70, 15, 11, 15, 25, 65, 5/13, 2/5, 13/3, 31/30⟩,
   ⟨"cyber-paladin", 150, 115, 95, 20, 21/2, 63/4, 105/4, 50, 21/40, 3/5, 5/2, 21/20⟩,
   ⟨"razor-bot-7", 150, 95, 100, 22, 21/2, 63/4, 65/2, 50, 13/20, 1/2, 25/11, 17/15⟩,
   ⟨"kitsune-09", 800, 95, 110, 22, 21/2, 33/2, 55/2, 45, 11/18, 7/10, 45/22, 13/12⟩,
   ⟨"gene-smasher", 800, 115, 90, 20, 25/2, 75/4, 55/2, 50, 11/20, 1/4, 5/2, 6/5⟩,
   ⟨"nano-brawler", 800, 95, 105, 22, 12, 15, 55/2, 50, 11/20, 9/20, 25/11, 11/10⟩,
   ⟨"sonic-striker", 800, 105, 100, 18, 23/2, 69/4, 25, 50, 1/2, 1/2, 25/9, 11/10⟩,
   ⟨"viperblade", 1500, 105, 100, 23, 23/2, 69/4, 55/2, 50, 11/20, 3/5, 50/23, 17/15⟩,
   ⟨"bastion-hulk", 1500, 120, 115, 20, 10, 15, 55/2, 45, 11/18, 17/20, 9/4, 31/30⟩,
   ⟨"technomancer", 1500, 95, 120, 25, 19/2, 57/4, 125/4, 85/2, 25/34, 11/20, 17/10, 21/20⟩,
   ⟨"prism-duelist", 1500, 100, 110, 22, 21/2, 63/4, 30, 45, 2/3, 3/4, 45/22, 11/10⟩,
   ⟨"chrono-drifter", 2500, 120, 105, 22, 11, 33/2, 125/4, 50, 5/8, 13/20, 25/11, 23/20⟩,
   ⟨"scrap-goliath", 2500, 115, 80, 25, 11, 33/2, 55/2, 55, 1/2, 1/2, 11/5, 11/10⟩,
   ⟨"aeon-guard", 2500, 120, 120, 24, 11, 33/2, 30, 50, 3/5, 13/20, 25/12, 17/15⟩,
   ⟨"void-reaper", 2500, 95, 120, 22, 25/2, 75/4, 125/4, 50, 5/8, 7/20, 25/11, 5/4⟩]

/-- The power-score formula as the spec's Step 2 sentence states it:
normalizedHP*1.0 + normalizedAvgDmgMod*1.5 + normalizedRegen*0.8 +
normalizedBlockStr*0.5 + normalizedSpecialDPE*1.0, where each normalized
value is (v - columnMin) / (columnMax - columnMin) over the whole roster,
with the five column minima and maxima passed explicitly. -/
def powerScoreSpec (hp avg reg blk dpe mnHP mxHP mnA mxA mnR mxR mnB mxB mnD mxD : ℚ) : ℚ :=
  (hp - mnHP) / (mxHP - mnHP) * 1.0 + (avg - mnA) / (mxA - mnA) * 1.5 +
    (reg - mnR) / (mxR - mnR) * 0.8 + (blk - mnB) / (mxB - mnB) * 0.5 +
    (dpe - mnD) / (mxD - mnD) * 1.0

/-- Folding a left-commutative operation is invariant under permutation. -/
theorem foldr_eq_of_perm {α β : Type} (f : α → β → β)
    (hcomm : ∀ a b c, f a (f b c) = f b (f a c)) {l1 l2 : List α}
    (p : l1.Perm l2) (b : β) : l1.foldr f b = l2.foldr f b := by
  induction p with
  | nil => rfl
  | cons x _ ih => simp only [List.foldr_cons, ih]
  | swap x y l => exact hcomm y x (l.foldr f b)
  | trans _ _ ih1 ih2 => exact ih1.trans ih2

theorem omin_left_comm (a b : ℚ) (c : Option ℚ) :
    omin a (omin b c) = omin b (omin a c) := by
  cases c with
  | none => simp [omin, min_comm]
  | some z => simp [omin, min_left_comm]

theorem omax_left_comm (a b : ℚ) (c : Option ℚ) :
    omax a (omax b c) = omax b (omax a c) := by
  cases c with
  | none => simp [omax, max_comm]
  | some z => simp [omax, max_left_comm]

/-- Column minima are permutation-invariant. -/
theorem colMin_perm (f : DerivedRow → ℚ) {l1 l2 : List DerivedRow}
    (p : l1.Perm l2) : colMin f l1 = colMin f l2 :=
  foldr_eq_of_perm _ (fun a b c => omin_left_comm (f a) (f b) c) p none

/-- Column maxima are permutation-invariant. -/
theorem colMax_perm (f : DerivedRow → ℚ) {l1 l2 : List DerivedRow}
    (p : l1.Perm l2) : colMax f l1 = colMax f l2 :=
  foldr_eq_of_perm _ (fun a b c => omax_left_comm (f a) (f b) c) p none

/-- A column of an empty frame has no minimum. -/
theorem colMin_eq_none {f : DerivedRow → ℚ} :
    ∀ {rows : List DerivedRow}, colMin f rows = none → rows = [] := by
  intro rows h
  cases rows with
  | nil => rfl
  | cons a l => simp [colMin, omin] at h

/-- The column minimum bounds every cell of the column from below. -/
theorem colMin_le_of_mem {f : DerivedRow → ℚ} :
    ∀ {rows : List DerivedRow} {mn : ℚ}, colMin f rows = some mn →
      ∀ r ∈ rows, mn ≤ f r := by
  intro rows
  induction rows with
  | nil => intro mn h r hr; cases hr
  | cons a l ih =>
    intro mn h r hr
    rw [colMin, List.foldr_cons] at h
    rcases hl : l.foldr (fun r acc => omin (f r) acc) (none : Option ℚ) with _ | m
    · have hnil : l = [] := colMin_eq_none hl
      subst hnil
      simp only [List.foldr_nil, omin, Option.elim] at h
      rcases List.mem_singleton.mp hr with rfl
      injection h with h
      exact h ▸ le_refl _
    · rw [hl] at h
      simp only [omin, Option.elim] at h
      injection h with h
      rcases List.mem_cons.mp hr with rfl | hr
      · exact h ▸ min_le_left _ _
      · exact le_trans (h ▸ min_le_right (f a) m) (ih hl r hr)

/-- A column of an empty frame has no maximum. -/
theorem colMax_eq_none {f : DerivedRow → ℚ} :
    ∀ {rows : List DerivedRow}, colMax f rows = none → rows = [] := by
  intro rows h
  cases rows with
  | nil => rfl
  | cons a l => simp [colMax, omax] at h

/-- The column maximum bounds every cell of the column from above. -/
theorem le_colMax_of_mem {f : DerivedRow → ℚ} :
    ∀ {rows : List DerivedRow} {mx : ℚ}, colMax f rows = some mx →
      ∀ r ∈ rows, f r ≤ mx := by
  intro rows
  induction rows with
  | nil => intro mx h r hr; cases hr
  | cons a l ih =>
    intro mx h r hr
    rw [colMax, List.foldr_cons] at h
    rcases hl : l.foldr (fun r acc => omax (f r) acc) (none : Option ℚ) with _ | m
    · have hnil : l = [] := colMax_eq_none hl
      subst hnil
      simp only [List.foldr_nil, omax, Option.elim] at h
      rcases List.mem_singleton.mp hr with rfl
      injection h with h
      exact h ▸ le_refl _
    · rw [hl] at h
      simp only [omax, Option.elim] at h
      injection h with h
      rcases List.mem_cons.mp hr with rfl | hr
      · exact h ▸ le_max_left _ _
      · exact le_trans (ih hl r hr) (h ▸ le_max_right (f a) m)

/-- C4: for every character definition that derives successfully, the
derivation engine computes punchDamage = 10 * punchModifier, kickDamage =
15 * kickModifier, specialDamage = 25 * specialModifier and specialCost =
50 * specialCostModifier, exactly, each depending on no other field of
the character. -/
theorem C4_base_damage_formulas (c : CharacterDef) (r : DerivedRow)
    (h : deriveRow c = some r) :
    r.punchDmg = 10 * c.damageModifiers.punch ∧
    r.kickDmg = 15 * c.damageModifiers.kick ∧
    r.specialDmg = 25 * c.damageModifiers.special ∧
    r.specialCost = 50 * c.specialCostModifier := by
  simp only [deriveRow] at h
  split_ifs at h
  injection h with h
  subst h
  exact ⟨rfl, rfl, rfl, rfl⟩

/-- Witness for C4 at the concrete roster entry cyber-ninja. -/
theorem C4_base_damage_formulas_witness :
    deriveRow cyberNinja = some cyberNinjaRow ∧
    cyberNinjaRow.punchDmg = 11.5 ∧ cyberNinjaRow.kickDmg = 15.75 ∧
    cyberNinjaRow.specialDmg = 25 ∧ cyberNinjaRow.specialCost = 42.5 := by
  have h : deriveRow cyberNinja = some cyberNinjaRow := by
    norm_num [deriveRow, cyberNinja, cyberNinjaRow, priceOf, PRICES, List.lookup,
      punchStats, kickStats, specialStats]
  obtain ⟨h1, h2, h3, h4⟩ := C4_base_damage_formulas cyberNinja cyberNinjaRow h
  refine ⟨h, ?_, ?_, ?_, ?_⟩
  · rw [h1]; norm_num [cyberNinja]
  · rw [h2]; norm_num [cyberNinja]
  · rw [h3]; norm_num [cyberNinja]
  · rw [h4]; norm_num [cyberNinja]

/-- C5: for every character, a successful derivation satisfies
specialDPE = specialDamage / specialCost and turnsToSpecial =
specialCost / energyRegen; and whenever either denominator is zero the
derivation fails (ZeroDivisionError, modelled as none) and is not
recovered. -/
theorem C5_division_semantics (c : CharacterDef) :
    (50 * c.specialCostModifier ≠ 0 → c.energyRegen ≠ 0 →
      ∃ r, deriveRow c = some r ∧
        r.specialCost = 50 * c.specialCostModifier ∧
        r.specialDPE = r.specialDmg / r.specialCost ∧
        r.turnsToSpecial = r.specialCost / c.energyRegen) ∧
    ((50 * c.specialCostModifier = 0 ∨ c.energyRegen = 0) →
      deriveRow c = none) := by
  constructor
  · intro h1 h2
    have hc : specialStats.energyCost * c.specialCostModifier ≠ 0 := by
      simpa [specialStats] using h1
    simp only [deriveRow, if_neg hc, if_neg h2]
    exact ⟨_, rfl, rfl, rfl, rfl⟩
  · intro h
    rcases h with h | h
    · have hc : specialStats.energyCost * c.specialCostModifier = 0 := by
        simpa [specialStats] using h
      simp only [deriveRow, if_pos hc]
    · by_cases hc : specialStats.energyCost * c.specialCostModifier = 0
      · simp only [deriveRow, if_pos hc]
      · simp only [deriveRow, if_neg hc, if_pos h]

/-- Witness for C5: cyber-ninja derives with the two quotient identities;
a zero special cost or a zero energy regen kills the derivation. -/
theorem C5_division_semantics_witness :
    (∃ r, deriveRow cyberNinja = some r ∧ r.specialCost = 42.5 ∧
        r.specialDPE = r.specialDmg / r.specialCost ∧
        r.turnsToSpecial = r.specialCost / cyberNinja.energyRegen) ∧
    deriveRow zeroCostChar = none ∧ deriveRow zeroRegenChar = none := by
  refine ⟨?_, ?_, ?_⟩
  · obtain ⟨r, hr, hcost, hdpe, hturn⟩ :=
      (C5_division_semantics cyberNinja).1 (by norm_num [cyberNinja])
        (by norm_num [cyberNinja])
    exact ⟨r, hr, by rw [hcost]; norm_num [cyberNinja], hdpe, hturn⟩
  · exact (C5_division_semantics zeroCostChar).2 (Or.inl (by norm_num [zeroCostChar]))
  · exact (C5_division_semantics zeroRegenChar).2 (Or.inr (by norm_num [zeroRegenChar]))

/-- C8: price lookup uses the PRICES entry when present and silently
defaults to 0 when the character id is absent, never failing. -/
theorem C8_price_lookup_default (n : String) :
    (List.lookup n PRICES = none → priceOf n = 0) ∧
    (∀ v, List.lookup n PRICES = some v → priceOf n = v) := by
  constructor
  · intro h
    unfold priceOf
    rw [h]
    rfl
  · intro v h
    unfold priceOf
    rw [h]
    rfl

/-- Witness for C8: an id missing from PRICES gets price 0; an id present
in PRICES gets its table entry. -/
theorem C8_price_lookup_default_witness :
    priceOf "not-a-character" = 0 ∧ priceOf "neon-wraith" = 150 :=
  ⟨(C8_price_lookup_default "not-a-character").1 (by rfl),
   (C8_price_lookup_default "neon-wraith").2 150 (by rfl)⟩

/-- C6: for a non-degenerate column, the minimum and maximum really bound
the column, the cell holding the minimum normalizes to exactly 0, the
cell holding the maximum to exactly 1, and every strictly intermediate
cell lands strictly between 0 and 1. -/
theorem C6_normalization_roundtrip (f : DerivedRow → ℚ) (rows : List DerivedRow)
    (mn mx : ℚ) (hmn : colMin f rows = some mn) (hmx : colMax f rows = some mx)
    (hlt : mn < mx) :
    (∀ r ∈ rows, mn ≤ f r ∧ f r ≤ mx) ∧
    normVal f rows mn = some 0 ∧
    normVal f rows mx = some 1 ∧
    (∀ v, mn < v → v < mx → ∃ q, normVal f rows v = some q ∧ 0 < q ∧ q < 1) := by
  have hne : mx - mn ≠ 0 := sub_ne_zero.mpr (ne_of_gt hlt)
  refine ⟨fun r hr => ⟨colMin_le_of_mem hmn r hr, le_colMax_of_mem hmx r hr⟩, ?_, ?_, ?_⟩
  · simp [normVal, hmn, hmx, nanDiv, hne]
  · have hd : (mx - mn) / (mx - mn) = 1 := div_self hne
    simp [normVal, hmn, hmx, nanDiv, hne, hd]
  · intro v h1 h2
    refine ⟨(v - mn) / (mx - mn), ?_, ?_, ?_⟩
    · simp [normVal, hmn, hmx, nanDiv, hne]
    · exact div_pos (sub_pos.mpr h1) (sub_pos.mpr hlt)
    · rw [div_lt_one (sub_pos.mpr hlt)]
      exact sub_lt_sub_right h2 mn

/-- Witness for C6 on a concrete three-row frame with HP column 0, 1, 2. -/
theorem C6_normalization_roundtrip_witness :
    colMin DerivedRow.hp wRows = some 0 ∧ colMax DerivedRow.hp wRows = some 2 ∧
    (0 : ℚ) < 2 ∧
    normVal DerivedRow.hp wRows 0 = some 0 ∧
    normVal DerivedRow.hp wRows 2 = some 1 ∧
    (∃ q, normVal DerivedRow.hp wRows 1 = some q ∧ 0 < q ∧ q < 1) := by
  have hmn : colMin DerivedRow.hp wRows = some 0 := by
    norm_num [colMin, wRows, wRow0, wRow1, wRow2, omin, min_def]
  have hmx : colMax DerivedRow.hp wRows = some 2 := by
    norm_num [colMax, wRows, wRow0, wRow1, wRow2, omax, max_def]
  obtain ⟨_, h0, h1, hmid⟩ :=
    C6_normalization_roundtrip DerivedRow.hp wRows 0 2 hmn hmx (by norm_num)
  exact ⟨hmn, hmx, by norm_num, h0, h1, hmid 1 (by norm_num) (by norm_num)⟩

/-- C2 (amended): when a normalized column has zero variance
(max == min) over the roster, the normalization step silently produces an
undefined (NaN) cell for every value of that column — pandas raises no
error on division by zero — instead of surfacing an explicit failure. -/
theorem C2_degenerate_column_nan (f : DerivedRow → ℚ) (rows : List DerivedRow)
    (mn mx : ℚ) (hmn : colMin f rows = some mn) (hmx : colMax f rows = some mx)
    (heq : mn = mx) : ∀ v, normVal f rows v = none := by
  intro v
  subst heq
  simp [normVal, hmn, hmx, nanDiv]

/-- Counterexample to C2 as stated: on a concrete roster whose HP column
has max == min (both rows have HP 100), the normalization step runs to
completion and yields an undefined (NaN) cell and an undefined power
score; no explicit error is surfaced. -/
theorem C2_counterexample :
    colMin DerivedRow.hp degRoster = some 100 ∧
    colMax DerivedRow.hp degRoster = some 100 ∧
    normVal DerivedRow.hp degRoster 100 = none ∧
    powerScore degRoster degRowA = none := by
  norm_num [colMin, colMax, normVal, nanDiv, powerScore, normalizeRow, scoreOfNorm,
    degRoster, degRowA, degRowB, omin, omax, min_def, max_def]

/-- Witness for the amended C2 on the concrete degenerate roster. -/
theorem C2_degenerate_column_nan_witness :
    colMin DerivedRow.hp degRoster = some 100 ∧
    colMax DerivedRow.hp degRoster = some 100 ∧
    normVal DerivedRow.hp degRoster 55 = none := by
  have hmn : colMin DerivedRow.hp degRoster = some 100 := by
    norm_num [colMin, degRoster, degRowA, degRowB, omin, min_def]
  have hmx : colMax DerivedRow.hp degRoster = some 100 := by
    norm_num [colMax, degRoster, degRowA, degRowB, omax, max_def]
  exact ⟨hmn, hmx, C2_degenerate_column_nan DerivedRow.hp degRoster 100 100 hmn hmx rfl 55⟩

/-- C1: under non-degenerate scored columns, every row's power score is
exactly the spec's weighted sum of the five normalized metrics, and the
normalized special damage column carries no weight: the score ignores the
specialDmg component of the normalized row entirely. -/
theorem C1_power_score_formula (rows : List DerivedRow)
    (mnHP mxHP mnA mxA mnR mxR mnB mxB mnD mxD : ℚ)
    (hHPmn : colMin DerivedRow.hp rows = some mnHP)
    (hHPmx : colMax DerivedRow.hp rows = some mxHP)
    (hAmn : colMin DerivedRow.avgDmgMod rows = some mnA)
    (hAmx : colMax DerivedRow.avgDmgMod rows = some mxA)
    (hRmn : colMin DerivedRow.regen rows = some mnR)
    (hRmx : colMax DerivedRow.regen rows = some mxR)
    (hBmn : colMin DerivedRow.blockStr rows = some mnB)
    (hBmx : colMax DerivedRow.blockStr rows = some mxB)
    (hDmn : colMin DerivedRow.specialDPE rows = some mnD)
    (hDmx : colMax DerivedRow.specialDPE rows = some mxD)
    (h1 : mnHP < mxHP) (h2 : mnA < mxA) (h3 : mnR < mxR)
    (h4 : mnB < mxB) (h5 : mnD < mxD) :
    (∀ r, powerScore rows r =
      some (powerScoreSpec r.hp r.avgDmgMod r.regen r.blockStr r.specialDPE
        mnHP mxHP mnA mxA mnR mxR mnB mxB mnD mxD)) ∧
    (∀ (n : NormRow) (x : Option ℚ),
      scoreOfNorm { n with specialDmg := x } = scoreOfNorm n) := by
  have e1 : mxHP - mnHP ≠ 0 := sub_ne_zero.mpr (ne_of_gt h1)
  have e2 : mxA - mnA ≠ 0 := sub_ne_zero.mpr (ne_of_gt h2)
  have e3 : mxR - mnR ≠ 0 := sub_ne_zero.mpr (ne_of_gt h3)
  have e4 : mxB - mnB ≠ 0 := sub_ne_zero.mpr (ne_of_gt h4)
  have e5 : mxD - mnD ≠ 0 := sub_ne_zero.mpr (ne_of_gt h5)
  constructor
  · intro r
    simp [powerScore, normalizeRow, scoreOfNorm, normVal, nanDiv, powerScoreSpec,
      hHPmn, hHPmx, hAmn, hAmx, hRmn, hRmx, hBmn, hBmx, hDmn, hDmx, e1, e2, e3, e4, e5]
  · intro n x
    rfl

/-- Witness for C1 on the concrete frame `wRows`. -/
theorem C1_power_score_formula_witness :
    colMin DerivedRow.hp wRows = some 0 ∧ (0 : ℚ) < 2 ∧
    powerScore wRows wRow1 =
      some (powerScoreSpec wRow1.hp wRow1.avgDmgMod wRow1.regen wRow1.blockStr
        wRow1.specialDPE 0 2 0 2 0 2 0 2 0 2) ∧
    scoreOfNorm ⟨some 1, some 1, some 1, some 1, some 1, some 99⟩ =
      scoreOfNorm ⟨some 1, some 1, some 1, some 1, some 1, some 0⟩ := by
  have hHPmn : colMin DerivedRow.hp wRows = some 0 := by
    norm_num [colMin, wRows, wRow0, wRow1, wRow2, omin, min_def]
  have hHPmx : colMax DerivedRow.hp wRows = some 2 := by
    norm_num [colMax, wRows, wRow0, wRow1, wRow2, omax, max_def]
  have hAmn : colMin DerivedRow.avgDmgMod wRows = some 0 := by
    norm_num [colMin, wRows, wRow0, wRow1, wRow2, omin, min_def]
  have hAmx : colMax DerivedRow.avgDmgMod wRows = some 2 := by
    norm_num [colMax, wRows, wRow0, wRow1, wRow2, omax, max_def]
  have hRmn : colMin DerivedRow.regen wRows = some 0 := by
    norm_num [colMin, wRows, wRow0, wRow1, wRow2, omin, min_def]
  have hRmx : colMax DerivedRow.regen wRows = some 2 := by
    norm_num [colMax, wRows, wRow0, wRow1, wRow2, omax, max_def]
  have hBmn : colMin DerivedRow.blockStr wRows = some 0 := by
    norm_num [colMin, wRows, wRow0, wRow1, wRow2, omin, min_def]
  have hBmx : colMax DerivedRow.blockStr wRows = some 2 := by
    norm_num [colMax, wRows, wRow0, wRow1, wRow2, omax, max_def]
  have hDmn : colMin DerivedRow.specialDPE wRows = some 0 := by
    norm_num [colMin, wRows, wRow0, wRow1, wRow2, omin, min_def]
  have hDmx : colMax DerivedRow.specialDPE wRows = some 2 := by
    norm_num [colMax, wRows, wRow0, wRow1, wRow2, omax, max_def]
  obtain ⟨hall, hnw⟩ :=
    C1_power_score_formula wRows 0 2 0 2 0 2 0 2 0 2
      hHPmn hHPmx hAmn hAmx hRmn hRmx hBmn hBmx hDmn hDmx
      (by norm_num) (by norm_num) (by norm_num) (by norm_num) (by norm_num)
  exact ⟨hHPmn, by norm_num, hall wRow1,
    hnw ⟨some 1, some 1, some 1, some 1, some 1, some 0⟩ (some 99)⟩

/-- C7: permuting the roster changes no computed value: every character
keeps the same power score and every price tier the same mean score. -/
theorem C7_permutation_invariance (rows1 rows2 : List DerivedRow)
    (p : rows1.Perm rows2) :
    (∀ r, powerScore rows1 r = powerScore rows2 r) ∧
    (∀ q : ℚ, tierMean q rows1 = tierMean q rows2) := by
  have hps : ∀ r, powerScore rows1 r = powerScore rows2 r := by
    intro r
    simp only [powerScore, normalizeRow, normVal,
      colMin_perm DerivedRow.hp p, colMax_perm DerivedRow.hp p,
      colMin_perm DerivedRow.avgDmgMod p, colMax_perm DerivedRow.avgDmgMod p,
      colMin_perm DerivedRow.regen p, colMax_perm DerivedRow.regen p,
      colMin_perm DerivedRow.blockStr p, colMax_perm DerivedRow.blockStr p,
      colMin_perm DerivedRow.specialDPE p, colMax_perm DerivedRow.specialDPE p,
      colMin_perm DerivedRow.specialDmg p, colMax_perm DerivedRow.specialDmg p]
  refine ⟨hps, ?_⟩
  intro q
  have hFeq :
      (fun (r : DerivedRow) (acc : Option ℚ) =>
        acc.bind (fun t => (powerScore rows1 r).map (· + t))) =
      (fun (r : DerivedRow) (acc : Option ℚ) =>
        acc.bind (fun t => (powerScore rows2 r).map (· + t))) := by
    funext r acc
    rw [hps r]
  have hcomm : ∀ (a b : DerivedRow) (c : Option ℚ),
      (fun (r : DerivedRow) (acc : Option ℚ) =>
        acc.bind (fun t => (powerScore rows2 r).map (· + t))) a
        ((fun (r : DerivedRow) (acc : Option ℚ) =>
          acc.bind (fun t => (powerScore rows2 r).map (· + t))) b c) =
      (fun (r : DerivedRow) (acc : Option ℚ) =>
        acc.bind (fun t => (powerScore rows2 r).map (· + t))) b
        ((fun (r : DerivedRow) (acc : Option ℚ) =>
          acc.bind (fun t => (powerScore rows2 r).map (· + t))) a c) := by
    intro a b c
    cases c with
    | none => rfl
    | some t =>
      cases hpa : powerScore rows2 a with
      | none =>
        cases hpb : powerScore rows2 b with
        | none => simp [hpa, hpb]
        | some y => simp [hpa, hpb]
      | some x =>
        cases hpb : powerScore rows2 b with
        | none => simp [hpa, hpb]
        | some y => simp [hpa, hpb]; ring
  have hfilter := p.filter (fun r => decide (r.price = q))
  simp only [tierMean]
  rw [hFeq, foldr_eq_of_perm _ hcomm hfilter, hfilter.length_eq]

/-- Witness for C7: exchanging the first two rows of the concrete frame
`wRows` changes neither a row's power score nor the price-150 tier mean. -/
theorem C7_permutation_invariance_witness :
    powerScore wRows wRow0 = powerScore wRowsSwapped wRow0 ∧
    tierMean 150 wRows = tierMean 150 wRowsSwapped := by
  have p : wRows.Perm wRowsSwapped := List.Perm.swap wRow1 wRow0 [wRow2]
  exact ⟨(C7_permutation_invariance wRows wRowsSwapped p).1 wRow0,
    (C7_permutation_invariance wRows wRowsSwapped p).2 150⟩

/-- C3: the report sort outputs a permutation of the scored rows that is
ordered by `rowLE` — price ascending first, then power score descending,
and, on rows with equal price and exactly equal score, by original roster
position (stability); concretely, two price-150 rows entered with scores
1.6 then 1.8 come out with the 1.8 row first. -/
theorem C3_sort_order :
    (∀ l : List (ℚ × ℚ),
      (sortRows (mkRows l)).Perm (mkRows l) ∧
      List.Sorted rowLE (sortRows (mkRows l))) ∧
    sortRows (mkRows [(150, 1.6), (150, 1.8)]) =
      [⟨1, 150, 1.8⟩, ⟨0, 150, 1.6⟩] := by
  constructor
  · intro l
    exact ⟨List.perm_insertionSort rowLE (mkRows l),
      List.sorted_insertionSort rowLE (mkRows l)⟩
  · norm_num [sortRows, mkRows, List.enum, List.enumFrom, List.insertionSort,
      List.orderedInsert, rowLE]

/-- If every per-character derivation succeeds, the whole pass does. -/
theorem deriveAll_isSome :
    ∀ {cs : List CharacterDef}, (∀ c ∈ cs, (deriveRow c).isSome) →
      (deriveAll cs).isSome := by
  intro cs
  induction cs with
  | nil => intro _; rfl
  | cons c cs ih =>
    intro h
    rcases Option.isSome_iff_exists.mp (h c (List.mem_cons_self c cs)) with ⟨r, hr⟩
    rcases Option.isSome_iff_exists.mp
      (ih (fun x hx => h x (List.mem_cons_of_mem c hx))) with ⟨rs, hrs⟩
    simp [deriveAll, hr, hrs]

/-- Under non-degenerate scored columns every row's power score is a
defined (non-NaN) value. -/
theorem powerScore_isSome_of_nondeg (rows : List DerivedRow)
    (mnHP mxHP mnA mxA mnR mxR mnB mxB mnD mxD : ℚ)
    (hHPmn : colMin DerivedRow.hp rows = some mnHP)
    (hHPmx : colMax DerivedRow.hp rows = some mxHP)
    (hAmn : colMin DerivedRow.avgDmgMod rows = some mnA)
    (hAmx : colMax DerivedRow.avgDmgMod rows = some mxA)
    (hRmn : colMin DerivedRow.regen rows = some mnR)
    (hRmx : colMax DerivedRow.regen rows = some mxR)
    (hBmn : colMin DerivedRow.blockStr rows = some mnB)
    (hBmx : colMax DerivedRow.blockStr rows = some mxB)
    (hDmn : colMin DerivedRow.specialDPE rows = some mnD)
    (hDmx : colMax DerivedRow.specialDPE rows = some mxD)
    (h1 : mnHP < mxHP) (h2 : mnA < mxA) (h3 : mnR < mxR)
    (h4 : mnB < mxB) (h5 : mnD < mxD) :
    ∀ r, (powerScore rows r).isSome := by
  intro r
  have e1 : mxHP - mnHP ≠ 0 := sub_ne_zero.mpr (ne_of_gt h1)
  have e2 : mxA - mnA ≠ 0 := sub_ne_zero.mpr (ne_of_gt h2)
  have e3 : mxR - mnR ≠ 0 := sub_ne_zero.mpr (ne_of_gt h3)
  have e4 : mxB - mnB ≠ 0 := sub_ne_zero.mpr (ne_of_gt h4)
  have e5 : mxD - mnD ≠ 0 := sub_ne_zero.mpr (ne_of_gt h5)
  simp [powerScore, normalizeRow, scoreOfNorm, normVal, nanDiv,
    hHPmn, hHPmx, hAmn, hAmx, hRmn, hRmx, hBmn, hBmx, hDmn, hDmx,
    e1, e2, e3, e4, e5]

/-- C9: every character of the embedded roster has positive special cost
modifier and positive energy regen, hence positive special cost, so both
divisions of the derivation are well-defined: each per-character
derivation succeeds and so does the whole pass. -/
theorem C9_sample_roster_divisions_safe :
    (∀ c ∈ CHARACTERS, 0 < c.specialCostModifier ∧
      0 < 50 * c.specialCostModifier ∧ 0 < c.energyRegen ∧
      (deriveRow c).isSome) ∧
    sampleRows?.isSome := by
  have hall : ∀ c ∈ CHARACTERS, 0 < c.specialCostModifier ∧
      0 < 50 * c.specialCostModifier ∧ 0 < c.energyRegen ∧
      (deriveRow c).isSome := by
    intro c hc
    fin_cases hc <;> norm_num [deriveRow, specialStats]
  exact ⟨hall, deriveAll_isSome (fun c hc => (hall c hc).2.2.2)⟩

/-- Witness for C9 at the concrete roster entry cyber-ninja. -/
theorem C9_sample_roster_divisions_safe_witness :
    (0 < cyberNinja.specialCostModifier ∧
      0 < 50 * cyberNinja.specialCostModifier ∧ 0 < cyberNinja.energyRegen ∧
      (deriveRow cyberNinja).isSome) ∧ sampleRows?.isSome :=
  ⟨C9_sample_roster_divisions_safe.1 cyberNinja
      (by norm_num [CHARACTERS, cyberNinja]),
   C9_sample_roster_divisions_safe.2⟩

/-- C10: on the embedded 20-character roster the derivation succeeds with
the exact rows of `sampleRowsList`, each of the six normalized columns has
strictly greater maximum than minimum, and consequently every character's
power score is a defined (finite) value. -/
theorem C10_sample_columns_nondegenerate :
    sampleRows? = some sampleRowsList ∧
    (colMin DerivedRow.hp sampleRowsList = some 92 ∧
      colMax DerivedRow.hp sampleRowsList = some 135 ∧ (92 : ℚ) < 135) ∧
    (colMin DerivedRow.avgDmgMod sampleRowsList = some (31/30) ∧
      colMax DerivedRow.avgDmgMod sampleRowsList = some (5/4) ∧
      (31/30 : ℚ) < 5/4) ∧
    (colMin DerivedRow.regen sampleRowsList = some 15 ∧
      colMax DerivedRow.regen sampleRowsList = some 25 ∧ (15 : ℚ) < 25) ∧
    (colMin DerivedRow.blockStr sampleRowsList = some (1/4) ∧
      colMax DerivedRow.blockStr sampleRowsList = some (17/20) ∧
      (1/4 : ℚ) < 17/20) ∧
    (colMin DerivedRow.specialDPE sampleRowsList = some (5/13) ∧
      colMax DerivedRow.specialDPE sampleRowsList = some (25/34) ∧
      (5/13 : ℚ) < 25/34) ∧
    (colMin DerivedRow.specialDmg sampleRowsList = some 25 ∧
      colMax DerivedRow.specialDmg sampleRowsList = some (65/2) ∧
      (25 : ℚ) < 65/2) ∧
    (∀ r ∈ sampleRowsList, (powerScore sampleRowsList r).isSome) := by
  have heval : sampleRows? = some sampleRowsList := by
    norm_num [sampleRows?, deriveAll, deriveRow, CHARACTERS, sampleRowsList,
      priceOf, PRICES, List.lookup, punchStats, kickStats, specialStats]
    simp
  have hHPmn : colMin DerivedRow.hp sampleRowsList = some 92 := by
    norm_num [colMin, sampleRowsList, omin, min_def]
  have hHPmx : colMax DerivedRow.hp sampleRowsList = some 135 := by
    norm_num [colMax, sampleRowsList, omax, max_def]
  have hAmn : colMin DerivedRow.avgDmgMod sampleRowsList = some (31/30) := by
    norm_num [colMin, sampleRowsList, omin, min_def]
  have hAmx : colMax DerivedRow.avgDmgMod sampleRowsList = some (5/4) := by
    norm_num [colMax, sampleRowsList, omax, max_def]
  have hRmn : colMin DerivedRow.regen sampleRowsList = some 15 := by
    norm_num [colMin, sampleRowsList, omin, min_def]
  have hRmx : colMax DerivedRow.regen sampleRowsList = some 25 := by
    norm_num [colMax, sampleRowsList, omax, max_def]
  have hBmn : colMin DerivedRow.blockStr sampleRowsList = some (1/4) := by
    norm_num [colMin, sampleRowsList, omin, min_def]
  have hBmx : colMax DerivedRow.blockStr sampleRowsList = some (17/20) := by
    norm_num [colMax, sampleRowsList, omax, max_def]
  have hDmn : colMin DerivedRow.specialDPE sampleRowsList = some (5/13) := by
    norm_num [colMin, sampleRowsList, omin, min_def]
  have hDmx : colMax DerivedRow.specialDPE sampleRowsList = some (25/34) := by
    norm_num [colMax, sampleRowsList, omax, max_def]
  have hSmn : colMin DerivedRow.specialDmg sampleRowsList = some 25 := by
    norm_num [colMin, sampleRowsList, omin, min_def]
  have hSmx : colMax DerivedRow.specialDmg sampleRowsList = some (65/2) := by
    norm_num [colMax, sampleRowsList, omax, max_def]
  refine ⟨heval, ⟨hHPmn, hHPmx, by norm_num⟩, ⟨hAmn, hAmx, by norm_num⟩,
    ⟨hRmn, hRmx, by norm_num⟩, ⟨hBmn, hBmx, by norm_num⟩,
    ⟨hDmn, hDmx, by norm_num⟩, ⟨hSmn, hSmx, by norm_num⟩, fun r _ => ?_⟩
  exact powerScore_isSome_of_nondeg sampleRowsList 92 135 (31/30) (5/4) 15 25
    (1/4) (17/20) (5/13) (25/34) hHPmn hHPmx hAmn hAmx hRmn hRmx hBmn hBmx
    hDmn hDmx (by norm_num) (by norm_num) (by norm_num) (by norm_num)
    (by norm_num) r

/-- Witness for C10 at the first derived row (cyber-ninja). -/
theorem C10_sample_columns_nondegenerate_witness :
    sampleRows? = some sampleRowsList ∧
    (powerScore sampleRowsList
      ⟨"cyber-ninja", 0, 96, 105, 20, 23/2, 63/4, 25, 85/2, 10/17, 3/5, 17/8,
        16/15⟩).isSome := by
  obtain ⟨heval, _, _, _, _, _, _, hscores⟩ := C10_sample_columns_nondegenerate
  exact ⟨heval, hscores _ (by norm_num [sampleRowsList])⟩

/-- Witness for C3 at the concrete two-row price-150 frame. -/
theorem C3_sort_order_witness :
    (sortRows (mkRows [(150, 1.6), (150, 1.8)])).Perm
      (mkRows [(150, 1.6), (150, 1.8)]) ∧
    List.Sorted rowLE (sortRows (mkRows [(150, 1.6), (150, 1.8)])) :=
  ⟨(C3_sort_order.1 [(150, 1.6), (150, 1.8)]).1,
   (C3_sort_order.1 [(150, 1.6), (150, 1.8)]).2⟩

end BalanceAnalyzer
